import Mathlib

/-!
Verification development for the vehicle-challan-system backend.

The embedding covers the parts of the repository the claims are about:
`backend/database/models.py` (entity schema), `backend/database/crud.py`
(persistence operations), `backend/utils/pdf_generator.py` (document
generator) and `backend/models/violation_detector.py` (violation-detection
stub).  Stateful database code is modelled by explicit state passing over an
in-memory store (`DB`); the SQLAlchemy session's query/commit behaviour is
reflected in the list operations; SQL `Float` columns are modelled by `Rat`;
`datetime.utcnow()` is modelled by an explicit `now : DateTime` parameter.

Note on the schema: `crud.py` addresses some `Challan` columns under the
names `issued_date` / `location` / `description` / integer `officer_id`,
while `models.py` spells the corresponding columns `issue_date` /
`violation_location` / `description`-less etc.  The embedded `Challan`
record follows the field names used by `crud.py` (the functions under
verification) and additionally carries the money columns of `models.py`
lines 89-92 (`fine_amount`, `additional_charges`, `total_amount`), which
claim C1 cites: `additional_charges` has column default `0`,
`total_amount` is declared `nullable=False` with no default, so an unset
`total_amount` is an SQL NULL that the insert rejects.
-/

set_option linter.unusedVariables false

namespace ChallanSystem

/-! ### Python dynamic values

The PDF generator receives Python dictionaries of dynamically typed values;
truthiness and the `isinstance(x, (int, float))` test follow Python. -/

inductive PyVal where
  | pstr (s : String)
  | pint (n : Int)
  | pfloat (q : Rat)
  | pnone
deriving DecidableEq

/-- Python truthiness: empty string, `0`, `0.0` and `None` are falsy. -/
def PyVal.truthy : PyVal → Bool
  | .pstr s => !s.isEmpty
  | .pint n => n != 0
  | .pfloat q => q != 0
  | .pnone => false

/-- Python `isinstance(v, (int, float))`. -/
def PyVal.isNumber : PyVal → Bool
  | .pint _ => true
  | .pfloat _ => true
  | _ => false

/-- Python `str(v)` as it ends up in a rendered table cell.  The float
rendering is informal (layout detail, out of the spec's scope). -/
def PyVal.pyStr : PyVal → String
  | .pstr s => s
  | .pint n => n.repr
  | .pfloat q => q.num.repr ++ "." ++ q.den.repr
  | .pnone => "None"

/-- A Python dictionary with string keys (association list, first key wins,
mirroring dict lookup). -/
def PyDict := List (String × PyVal)

/-- `k in d` for a Python dict. -/
def PyDict.hasKey (d : PyDict) (k : String) : Bool :=
  (d.find? (fun kv => kv.1 == k)).isSome

/-- `d.get(k)` for a Python dict (`None` when absent is rendered by callers
via `Option`). -/
def PyDict.get? (d : PyDict) (k : String) : Option PyVal :=
  (d.find? (fun kv => kv.1 == k)).map (fun kv => kv.2)

/-- `d[k]` where callers have already checked presence; absent keys give
`None` (not reached on the guarded paths). -/
def PyDict.getV (d : PyDict) (k : String) : PyVal :=
  (d.get? k).getD .pnone

/-! ### Time

`datetime.utcnow()` values.  Python `datetime` comparison is lexicographic
on (year, month, day, hour, minute, second, microsecond). -/

structure DateTime where
  year : Nat
  month : Nat
  day : Nat
  hour : Nat
  minute : Nat
  second : Nat
  microsecond : Nat
deriving DecidableEq

def DateTime.key (t : DateTime) : List Nat :=
  [t.year, t.month, t.day, t.hour, t.minute, t.second, t.microsecond]

/-- `a <= b` on datetimes (lexicographic, as in Python). -/
def DateTime.le (a b : DateTime) : Bool :=
  decide (a.key ≤ b.key)

/-- `now.replace(hour=0, minute=0, second=0, microsecond=0)`
(crud.py line 631). -/
def DateTime.atMidnight (t : DateTime) : DateTime :=
  { t with hour := 0, minute := 0, second := 0, microsecond := 0 }

/-! ### Entity records (models.py / the record shape crud.py manipulates) -/

/-- Vehicle row (`models.py` lines 10-31). -/
structure Vehicle where
  id : Int
  registration_number : String
  vehicle_type : String
  owner_name : String
  owner_contact : String
  owner_email : Option String
  owner_address : Option String
  chassis_number : String
  engine_number : String
  manufacturing_year : Option Int
  color : Option String
  fuel_type : Option String
  registration_date : DateTime
  created_at : DateTime
  updated_at : DateTime
deriving DecidableEq

/-- Violation-type row (`models.py` lines 37-52). -/
structure ViolationType where
  id : Int
  violation_code : String
  violation_name : String
  description : Option String
  fine_amount : Rat
  penalty_points : Int
  is_active : Bool
  created_at : DateTime
  updated_at : DateTime
deriving DecidableEq

/-- Challan row.  Field names follow their use in `crud.py` (see the module
comment); `fine_amount` / `additional_charges` / `total_amount` are the
money columns of `models.py` lines 89-91.  `total_amount : Option Rat`
models the column value, `none` standing for SQL NULL (the column itself is
declared `nullable=False` with no default). -/
structure Challan where
  id : Int
  challan_number : String
  vehicle_id : Int
  violation_type_id : Int
  officer_id : Int
  issued_date : DateTime
  location : String
  description : Option String
  fine_amount : Rat
  additional_charges : Rat
  total_amount : Option Rat
  status : String
  payment_date : Option DateTime
  payment_method : Option String
  transaction_id : Option String
  remarks : Option String
  created_at : DateTime
  updated_at : DateTime
deriving DecidableEq

/-- The in-memory store standing for the database session's view. -/
structure DB where
  vehicles : List Vehicle
  violation_types : List ViolationType
  challans : List Challan
deriving DecidableEq

def DB.empty : DB := ⟨[], [], []⟩

/-! ### Update / create schemas

Modelled from the spec: the `schemas` module (`VehicleUpdate`,
`ViolationTypeUpdate`, `ChallanUpdate`, `ChallanCreate`) imported by
`crud.py` is not under `src/`.  Per the spec's partial-update semantics
("updates ... apply only the fields explicitly supplied by the caller ...
unset fields are left untouched"), an update schema is a patch with one
optional slot per mutable column; a `some` slot is a field the caller
explicitly supplied (pydantic `dict(exclude_unset=True)` keeps exactly the
supplied fields).  Nullable columns get `Option (Option _)` slots so that
"supplied as null" stays distinct from "not supplied". -/

structure VehicleUpdate where
  registration_number : Option String
  vehicle_type : Option String
  owner_name : Option String
  owner_contact : Option String
  owner_email : Option (Option String)
  owner_address : Option (Option String)
  chassis_number : Option String
  engine_number : Option String
  manufacturing_year : Option (Option Int)
  color : Option (Option String)
  fuel_type : Option (Option String)
deriving DecidableEq

/-- The empty partial update: no field was supplied. -/
def VehicleUpdate.empty : VehicleUpdate :=
  ⟨none, none, none, none, none, none, none, none, none, none, none⟩

structure ViolationTypeUpdate where
  violation_code : Option String
  violation_name : Option String
  description : Option (Option String)
  fine_amount : Option Rat
  penalty_points : Option Int
  is_active : Option Bool
deriving DecidableEq

def ViolationTypeUpdate.empty : ViolationTypeUpdate :=
  ⟨none, none, none, none, none, none⟩

structure ChallanUpdate where
  location : Option String
  description : Option (Option String)
  fine_amount : Option Rat
  additional_charges : Option Rat
  status : Option String
  payment_date : Option (Option DateTime)
  payment_method : Option (Option String)
  transaction_id : Option (Option String)
  remarks : Option (Option String)
deriving DecidableEq

def ChallanUpdate.empty : ChallanUpdate :=
  ⟨none, none, none, none, none, none, none, none, none⟩

/-- Modelled from the spec: `schemas.ChallanCreate`, fields taken from their
use in `crud.create_challan` (violation_type_id, location, description,
fine_amount, status). -/
structure ChallanCreate where
  violation_type_id : Int
  location : String
  description : Option String
  fine_amount : Rat
  status : Option String
deriving DecidableEq

/-- Python `x or dflt` for an optional string (crud.py
`challan.status or "pending"`). -/
def pyOrStr (x : Option String) (dflt : String) : String :=
  match x with
  | some s => if s.isEmpty then dflt else s
  | none => dflt

/-- Python `str.zfill(w)`: left-pad with zeros up to width `w`. -/
def zfill (w : Nat) (s : String) : String :=
  if s.length < w then String.mk (List.replicate (w - s.length) '0') ++ s else s

/-- `datetime.utcnow().strftime("%Y%m%d")`: the year zero-padded to four
digits, month and day to two. -/
def formatYYYYMMDD (t : DateTime) : String :=
  zfill 4 (Nat.repr t.year) ++ zfill 2 (Nat.repr t.month) ++ zfill 2 (Nat.repr t.day)

/-- The ordering used by `order_by(Challan.issued_date.desc())`:
descending by issued date. -/
def challanIssuedDesc (a b : Challan) : Prop :=
  b.issued_date.key ≤ a.issued_date.key

instance : DecidableRel challanIssuedDesc :=
  fun a b => inferInstanceAs (Decidable (_ ≤ _))

instance : IsTotal Challan challanIssuedDesc :=
  ⟨fun a b => le_total b.issued_date.key a.issued_date.key⟩

instance : IsTrans Challan challanIssuedDesc :=
  ⟨fun _ _ _ h1 h2 => le_trans h2 h1⟩

/-! ### Vehicle CRUD operations (crud.py lines 20-160) -/

/-- `get_vehicle` (crud.py 20-31): `query(Vehicle).filter(Vehicle.id == vehicle_id).first()`. -/
def get_vehicle (db : DB) (vehicle_id : Int) : Option Vehicle :=
  db.vehicles.find? (fun v => v.id == vehicle_id)

/-- `get_vehicle_by_registration` (crud.py 34-47). -/
def get_vehicle_by_registration (db : DB) (registration_number : String) : Option Vehicle :=
  db.vehicles.find? (fun v => v.registration_number == registration_number)

/-- Applying `for field, value in update_data.items(): setattr(...)` after
`update_data = vehicle_update.dict(exclude_unset=True)` and
`update_data["updated_at"] = datetime.utcnow()` (crud.py 131-135). -/
def VehicleUpdate.apply (u : VehicleUpdate) (v : Vehicle) (now : DateTime) : Vehicle :=
  { v with
    registration_number := u.registration_number.getD v.registration_number
    vehicle_type := u.vehicle_type.getD v.vehicle_type
    owner_name := u.owner_name.getD v.owner_name
    owner_contact := u.owner_contact.getD v.owner_contact
    owner_email := u.owner_email.getD v.owner_email
    owner_address := u.owner_address.getD v.owner_address
    chassis_number := u.chassis_number.getD v.chassis_number
    engine_number := u.engine_number.getD v.engine_number
    manufacturing_year := u.manufacturing_year.getD v.manufacturing_year
    color := u.color.getD v.color
    fuel_type := u.fuel_type.getD v.fuel_type
    updated_at := now }

/-- `update_vehicle` (crud.py 110-139): fetch by id, `None` when absent,
otherwise set the supplied fields plus `updated_at` and commit. -/
def update_vehicle (db : DB) (vehicle_id : Int) (vehicle_update : VehicleUpdate)
    (now : DateTime) : Option Vehicle × DB :=
  match db.vehicles.find? (fun v => v.id == vehicle_id) with
  | none => (none, db)
  | some v =>
    let v2 := vehicle_update.apply v now
    (some v2, { db with vehicles := db.vehicles.map (fun w => if w.id == vehicle_id then v2 else w) })

/-- `delete_vehicle` (crud.py 142-160).  `db.delete(db_vehicle)` cascades to
the vehicle's challans per `models.py` line 31
(`cascade="all, delete-orphan"`). -/
def delete_vehicle (db : DB) (vehicle_id : Int) : Bool × DB :=
  match db.vehicles.find? (fun v => v.id == vehicle_id) with
  | none => (false, db)
  | some _ =>
    (true, { db with
      vehicles := db.vehicles.filter (fun v => !(v.id == vehicle_id))
      challans := db.challans.filter (fun c => !(c.vehicle_id == vehicle_id)) })

/-! ### Violation-type CRUD operations (crud.py lines 165-298) -/

/-- `get_violation_type` (crud.py 165-176). -/
def get_violation_type (db : DB) (violation_type_id : Int) : Option ViolationType :=
  db.violation_types.find? (fun t => t.id == violation_type_id)

/-- The `setattr` loop of `update_violation_type` (crud.py 267-271). -/
def ViolationTypeUpdate.apply (u : ViolationTypeUpdate) (t : ViolationType)
    (now : DateTime) : ViolationType :=
  { t with
    violation_code := u.violation_code.getD t.violation_code
    violation_name := u.violation_name.getD t.violation_name
    description := u.description.getD t.description
    fine_amount := u.fine_amount.getD t.fine_amount
    penalty_points := u.penalty_points.getD t.penalty_points
    is_active := u.is_active.getD t.is_active
    updated_at := now }

/-- `update_violation_type` (crud.py 244-275). -/
def update_violation_type (db : DB) (violation_type_id : Int)
    (violation_type_update : ViolationTypeUpdate) (now : DateTime) :
    Option ViolationType × DB :=
  match db.violation_types.find? (fun t => t.id == violation_type_id) with
  | none => (none, db)
  | some t =>
    let t2 := violation_type_update.apply t now
    (some t2, { db with
      violation_types := db.violation_types.map (fun s => if s.id == violation_type_id then t2 else s) })

/-! ### Challan CRUD operations (crud.py lines 303-466) -/

/-- `get_challan` (crud.py 303-314). -/
def get_challan (db : DB) (challan_id : Int) : Option Challan :=
  db.challans.find? (fun c => c.id == challan_id)

/-- `get_challan_by_number` (crud.py 317-328). -/
def get_challan_by_number (db : DB) (challan_number : String) : Option Challan :=
  db.challans.find? (fun c => c.challan_number == challan_number)

/-- `if vehicle_id: query = query.filter(Challan.vehicle_id == vehicle_id)`
(crud.py 359-360).  The guard is Python truthiness, so both `None` and `0`
leave the query unchanged. -/
def filterByVehicle (q : List Challan) (vehicle_id : Option Int) : List Challan :=
  match vehicle_id with
  | some v => if v == 0 then q else q.filter (fun c => c.vehicle_id == v)
  | none => q

/-- `if status: ...` (crud.py 362-363); `None` and `""` are falsy. -/
def filterByStatus (q : List Challan) (status : Option String) : List Challan :=
  match status with
  | some s => if s.isEmpty then q else q.filter (fun c => c.status == s)
  | none => q

/-- `if officer_id: ...` (crud.py 365-366). -/
def filterByOfficer (q : List Challan) (officer_id : Option Int) : List Challan :=
  match officer_id with
  | some o => if o == 0 then q else q.filter (fun c => c.officer_id == o)
  | none => q

/-- `if date_from: ...` (crud.py 368-369); datetime objects are always
truthy. -/
def filterByDateFrom (q : List Challan) (date_from : Option DateTime) : List Challan :=
  match date_from with
  | some df => q.filter (fun (c : Challan) => DateTime.le df c.issued_date)
  | none => q

/-- `if date_to: ...` (crud.py 371-372). -/
def filterByDateTo (q : List Challan) (date_to : Option DateTime) : List Challan :=
  match date_to with
  | some dt2 => q.filter (fun (c : Challan) => DateTime.le c.issued_date dt2)
  | none => q

/-- `get_challans` (crud.py 331-374): conditional filters applied in source
order, then `order_by(Challan.issued_date.desc()).offset(skip).limit(limit)`. -/
def get_challans (db : DB) (skip limit : Nat) (vehicle_id : Option Int)
    (status : Option String) (officer_id : Option Int)
    (date_from date_to : Option DateTime) : List Challan :=
  let q := db.challans
  let q := filterByVehicle q vehicle_id
  let q := filterByStatus q status
  let q := filterByOfficer q officer_id
  let q := filterByDateFrom q date_from
  let q := filterByDateTo q date_to
  (((q.insertionSort challanIssuedDesc).drop skip).take limit)

/-- `generate_challan_number` (crud.py 617-635): format
`CH-<YYYYMMDD>-<zfill 5 serial>` where the serial is one more than the count
of challans whose `created_at` is at or after today's UTC midnight. -/
def generate_challan_number (db : DB) (now : DateTime) : String :=
  let date_str := formatYYYYMMDD now
  let count := (db.challans.filter (fun c => DateTime.le now.atMidnight c.created_at)).length
  let serial := zfill 5 (Nat.repr (count + 1))
  "CH-" ++ date_str ++ "-" ++ serial

/-- Autoincrement primary key for a fresh challan row (identity generation
is the storage engine's; any fresh value works, none of the claims depend
on it). -/
def nextChallanId (db : DB) : Int :=
  (db.challans.map (fun c => c.id)).foldr max 0 + 1

/-- The row built by `create_challan` (crud.py 398-409).  The kwargs passed
are exactly: challan_number, vehicle_id, violation_type_id, officer_id,
issued_date, location, description, fine_amount, status, created_at.
Columns not passed take their `models.py` defaults: `additional_charges`
defaults to `0` (line 90), `updated_at` defaults to now (line 107), the
nullable payment/remarks columns default to NULL — and `total_amount`
(line 91) has no default at all, so its inserted value is NULL (`none`). -/
def createChallanRow (db : DB) (challan : ChallanCreate) (vehicle_id : Int)
    (officer_id : Int) (now : DateTime) : Challan :=
  { id := nextChallanId db
    challan_number := generate_challan_number db now
    vehicle_id := vehicle_id
    violation_type_id := challan.violation_type_id
    officer_id := officer_id
    issued_date := now
    location := challan.location
    description := challan.description
    fine_amount := challan.fine_amount
    additional_charges := 0
    total_amount := none
    status := pyOrStr challan.status "pending"
    payment_date := none
    payment_method := none
    transaction_id := none
    remarks := none
    created_at := now
    updated_at := now }

/-- `create_challan` (crud.py 377-413): generate the challan number, build
the row, `db.add` + `db.commit`.  The commit enforces the `models.py`
declaration `total_amount = Column(Float, nullable=False)` (line 91): a row
whose `total_amount` is NULL is rejected by the storage engine
(IntegrityError), surfaced per the spec's failure semantics as a
storage-layer exception. -/
def create_challan (db : DB) (challan : ChallanCreate) (vehicle_id : Int)
    (officer_id : Int) (now : DateTime) : Except String (Challan × DB) :=
  let row := createChallanRow db challan vehicle_id officer_id now
  if row.total_amount.isSome then
    Except.ok (row, { db with challans := db.challans ++ [row] })
  else
    Except.error "NOT NULL constraint failed: challans.total_amount"

/-- The `setattr` loop of `update_challan` (crud.py 437-441). -/
def ChallanUpdate.apply (u : ChallanUpdate) (c : Challan) (now : DateTime) : Challan :=
  { c with
    location := u.location.getD c.location
    description := u.description.getD c.description
    fine_amount := u.fine_amount.getD c.fine_amount
    additional_charges := u.additional_charges.getD c.additional_charges
    status := u.status.getD c.status
    payment_date := u.payment_date.getD c.payment_date
    payment_method := u.payment_method.getD c.payment_method
    transaction_id := u.transaction_id.getD c.transaction_id
    remarks := u.remarks.getD c.remarks
    updated_at := now }

/-- `update_challan` (crud.py 416-445). -/
def update_challan (db : DB) (challan_id : Int) (challan_update : ChallanUpdate)
    (now : DateTime) : Option Challan × DB :=
  match db.challans.find? (fun c => c.id == challan_id) with
  | none => (none, db)
  | some c =>
    let c2 := challan_update.apply c now
    (some c2, { db with challans := db.challans.map (fun d => if d.id == challan_id then c2 else d) })

/-! ### Analytical operations (crud.py lines 471-612) -/

/-- SQL `SUM(...)`: NULL over no rows, otherwise the sum. -/
def sqlSum (l : List Rat) : Option Rat :=
  match l with
  | [] => none
  | _ => some l.sum

/-- Python `x or dflt` for an optional number (`result or 0.0`). -/
def pyOrRat (x : Option Rat) (dflt : Rat) : Rat :=
  match x with
  | some v => if v == 0 then dflt else v
  | none => dflt

/-- Python `x or dflt` for a count (`total_vehicles or 0`). -/
def pyOrNat (x : Nat) (dflt : Nat) : Nat :=
  if x == 0 then dflt else x

structure DashboardStatistics where
  total_vehicles : Nat
  total_challans : Nat
  pending_challans : Nat
  total_revenue : Rat
deriving DecidableEq

/-- `get_dashboard_statistics` (crud.py 588-612): total vehicle and challan
counts, pending count, and revenue as `SUM(fine_amount)` over challans with
status `paid`, each defaulted through Python `or`. -/
def get_dashboard_statistics (db : DB) : DashboardStatistics :=
  let total_vehicles := db.vehicles.length
  let total_challans := db.challans.length
  let pending_challans := (db.challans.filter (fun c => c.status == "pending")).length
  let total_revenue := sqlSum ((db.challans.filter (fun c => c.status == "paid")).map (fun c => c.fine_amount))
  { total_vehicles := pyOrNat total_vehicles 0
    total_challans := pyOrNat total_challans 0
    pending_challans := pyOrNat pending_challans 0
    total_revenue := pyOrRat total_revenue 0 }

/-! ### Document generator (pdf_generator.py)

The `PDFGenerator` class with the default constructor arguments
(`title = "Vehicle Challan System"`).  A flowable is modelled by its data
content; `doc.build` / the byte buffer are reportlab (an external
collaborator per the spec's non-goals), modelled as concatenating the
textual content of the assembled story — the validation logic and the
story assembly below are translated from the source. -/

namespace Pdf

/-- A reportlab flowable as assembled by the `_create_*` helpers. -/
inductive Element where
  | para (text : String)
  | table (rows : List (List String))
  | spacer
deriving DecidableEq

/-- `self.title` for a default-constructed `PDFGenerator`. -/
def title : String := "Vehicle Challan System"

/-- `str.upper()` (character-wise; the titles involved are ASCII). -/
def strUpper (s : String) : String := String.mk (s.data.map Char.toUpper)

/-- A table cell fed from `data.get(key, default)`, stringified by the
layout engine. -/
def cell (d : PyDict) (k : String) (dflt : String) : String :=
  match d.get? k with
  | some v => v.pyStr
  | none => dflt

/-- `_create_challan_header` (pdf_generator.py 230-235). -/
def createChallanHeader : List Element :=
  [.para (strUpper title), .para "TRAFFIC VIOLATION CHALLAN"]

/-- `_create_challan_details_section` (pdf_generator.py 244-259). -/
def createChallanDetailsSection (data : PyDict) : List Element :=
  [.para "Challan Details",
   .table [["Challan Number", cell data "challan_number" "N/A"],
           ["Date Issued", cell data "date" "N/A"],
           ["Location", cell data "location" "N/A"],
           ["Officer ID", cell data "officer_id" "N/A"]]]

/-- `_create_vehicle_info_section` (pdf_generator.py 261-276). -/
def createVehicleInfoSection (data : PyDict) : List Element :=
  [.para "Vehicle Information",
   .table [["Vehicle Number", cell data "vehicle_number" "N/A"],
           ["Owner Name", cell data "owner_name" "N/A"],
           ["Contact Number", cell data "contact_number" "N/A"],
           ["Address", cell data "address" "N/A"]]]

/-- `_create_violation_section` (pdf_generator.py 278-293). -/
def createViolationSection (data : PyDict) : List Element :=
  [.para "Violation Details",
   .table [["Violation Type", cell data "violation_type" "N/A"],
           ["Description", cell data "violation_description" "N/A"],
           ["Section", cell data "section" "N/A"],
           ["Remarks", cell data "remarks" ""]]]

/-- `_create_amount_section` (pdf_generator.py 295-315), including the
conditional notes block guarded by `if data.get("notes"):`. -/
def createAmountSection (data : PyDict) : List Element :=
  [.para "Amount Due",
   .table [["Base Fine", "₹" ++ cell data "base_fine" "0"],
           ["Additional Fine", "₹" ++ cell data "additional_fine" "0"],
           ["Total Amount", "₹" ++ cell data "amount" "0"],
           ["Due Date", cell data "due_date" "N/A"]]] ++
  (if (data.getV "notes").truthy then
    [.spacer, .para "Notes:", .para (cell data "notes" "")]
  else [])

/-- `_create_signature_section` (pdf_generator.py 368-387). -/
def createSignatureSection : List Element :=
  [.spacer,
   .table [["Issued By", "", "Acknowledged By"],
           ["________________", "", "________________"],
           ["Officer Signature", "", "Owner/Driver Signature"]]]

/-- The textual content of one flowable. -/
def renderElement : Element → String
  | .para t => t
  | .table rows => String.join (rows.map (fun r => String.join r))
  | .spacer => ""

/-- `doc.build(story)` followed by reading the byte buffer: the produced
byte stream, modelled as the concatenated content of the story. -/
def render (story : List Element) : String :=
  match story with
  | [] => ""
  | e :: rest => renderElement e ++ render rest

/-- The `required_fields` list of `generate_challan_pdf`
(pdf_generator.py 117-120). -/
def requiredChallanFields : List String :=
  ["challan_number", "date", "vehicle_number", "owner_name",
   "violation_description", "amount", "location"]

/-- A single-quote character, written by code point to keep the source free
of literal apostrophes. -/
def sq : String := String.singleton (Char.ofNat 39)

/-- Python `repr` of a list of strings, as an f-string renders
`{required_fields}`. -/
def pyListRepr (xs : List String) : String :=
  "[" ++ String.intercalate ", " (xs.map (fun s => sq ++ s ++ sq)) ++ "]"

/-- The message of the `ValueError` raised by `generate_challan_pdf` when a
required key is absent (pdf_generator.py 123). -/
def challanMissingFieldsMsg : String :=
  "Missing required fields. Required: " ++ pyListRepr requiredChallanFields

/-- The story assembled by `generate_challan_pdf` (pdf_generator.py
135-158). -/
def challanStory (challan_data : PyDict) : List Element :=
  createChallanHeader ++ [Element.spacer] ++
  createChallanDetailsSection challan_data ++ [Element.spacer] ++
  createVehicleInfoSection challan_data ++ [Element.spacer] ++
  createViolationSection challan_data ++ [Element.spacer] ++
  createAmountSection challan_data ++ [Element.spacer] ++
  createSignatureSection

/-- `generate_challan_pdf` (pdf_generator.py 102-166): raise `ValueError`
unless every required key is present (`all(field in challan_data ...)` — a
presence check only), then build the story and either write to
`output_path` (returning `None`) or return the buffer's bytes. -/
def generate_challan_pdf (challan_data : PyDict) (output_path : Option String) :
    Except String (Option String) :=
  if requiredChallanFields.all (fun f => challan_data.hasKey f) then
    match output_path with
    | some _ => Except.ok none
    | none => Except.ok (some (render (challanStory challan_data)))
  else
    Except.error challanMissingFieldsMsg

/-- The `required_fields` dict of `validate_challan_data`
(pdf_generator.py 443-451): field key paired with its human label. -/
def requiredChallanLabels : List (String × String) :=
  [("challan_number", "Challan Number"), ("date", "Date"),
   ("vehicle_number", "Vehicle Number"), ("owner_name", "Owner Name"),
   ("violation_description", "Violation Description"), ("amount", "Amount"),
   ("location", "Location")]

/-- `validate_challan_data` (pdf_generator.py 431-460): a required field
that is absent *or falsy* contributes `"<Label> is required"`; a truthy
non-numeric `amount` contributes `"Amount must be a number"`; returns
`(len(errors) == 0, errors)`. -/
def validate_challan_data (data : PyDict) : Bool × List String :=
  let errors := requiredChallanLabels.filterMap (fun fl =>
    if !(data.hasKey fl.1) || !(data.getV fl.1).truthy then
      some (fl.2 ++ " is required")
    else none)
  let errors := errors ++
    (if (data.getV "amount").truthy && !(data.getV "amount").isNumber then
      ["Amount must be a number"]
    else [])
  (errors.isEmpty, errors)

end Pdf

/-! ### Violation-detection stub (violation_detector.py)

The detector's mutable `violation_history` is modelled by explicit state
passing; frames are an arbitrary type parameter (the stub never inspects
them). -/

namespace Detector

/-- The `ViolationType` enum of violation_detector.py lines 13-18. -/
inductive ViolationType where
  | helmet_not_worn
  | seat_belt_not_worn
  | tripling
  | none_type
deriving DecidableEq

/-- `ViolationDetection` dataclass (violation_detector.py 21-29).
`additional_info` is an optional string-to-int dict (its one use is
`{"occupant_count": 0}`). -/
structure ViolationDetection where
  violation_type : ViolationType
  confidence : Rat
  location : Int × Int × Int × Int
  timestamp : DateTime
  vehicle_id : Option String
  additional_info : Option (List (String × Int))
deriving DecidableEq

/-- `ViolationDetector` instance state (violation_detector.py 38-46). -/
structure ViolationDetector where
  confidence_threshold : Rat
  violation_history : List ViolationDetection
deriving DecidableEq

/-- The detection record built by `detect_helmet_violation`
(violation_detector.py 65-70): confidence hard-coded to `0.0`. -/
def mkHelmetDetection (vehicle_region : Int × Int × Int × Int)
    (now : DateTime) : ViolationDetection :=
  { violation_type := .helmet_not_worn
    confidence := 0
    location := vehicle_region
    timestamp := now
    vehicle_id := none
    additional_info := none }

/-- The detection record built by `detect_seat_belt_violation`
(violation_detector.py 90-95). -/
def mkSeatBeltDetection (vehicle_region : Int × Int × Int × Int)
    (now : DateTime) : ViolationDetection :=
  { violation_type := .seat_belt_not_worn
    confidence := 0
    location := vehicle_region
    timestamp := now
    vehicle_id := none
    additional_info := none }

/-- The detection record built by `detect_tripling_violation`
(violation_detector.py 115-121). -/
def mkTriplingDetection (vehicle_region : Int × Int × Int × Int)
    (now : DateTime) : ViolationDetection :=
  { violation_type := .tripling
    confidence := 0
    location := vehicle_region
    timestamp := now
    vehicle_id := none
    additional_info := some [("occupant_count", 0)] }

/-- `detect_helmet_violation` (violation_detector.py 48-71): return the
record iff `violation.confidence >= self.confidence_threshold`. -/
def detect_helmet_violation {F : Type} (d : ViolationDetector) (frame : F)
    (vehicle_region : Int × Int × Int × Int) (now : DateTime) :
    Option ViolationDetection :=
  let violation := mkHelmetDetection vehicle_region now
  if d.confidence_threshold ≤ violation.confidence then some violation else none

/-- `detect_seat_belt_violation` (violation_detector.py 73-96). -/
def detect_seat_belt_violation {F : Type} (d : ViolationDetector) (frame : F)
    (vehicle_region : Int × Int × Int × Int) (now : DateTime) :
    Option ViolationDetection :=
  let violation := mkSeatBeltDetection vehicle_region now
  if d.confidence_threshold ≤ violation.confidence then some violation else none

/-- `detect_tripling_violation` (violation_detector.py 98-122). -/
def detect_tripling_violation {F : Type} (d : ViolationDetector) (frame : F)
    (vehicle_region : Int × Int × Int × Int) (now : DateTime) :
    Option ViolationDetection :=
  let violation := mkTriplingDetection vehicle_region now
  if d.confidence_threshold ≤ violation.confidence then some violation else none

/-- `detect_all_violations` (violation_detector.py 124-156): run the three
detectors, collect the non-`None` results, extend `violation_history`, and
return the list (paired here with the updated detector state). -/
def detect_all_violations {F : Type} (d : ViolationDetector) (frame : F)
    (vehicle_region : Int × Int × Int × Int) (now : DateTime) :
    List ViolationDetection × ViolationDetector :=
  let violations : List ViolationDetection := []
  let violations := violations ++
    (match detect_helmet_violation d frame vehicle_region now with
     | some v => [v]
     | none => [])
  let violations := violations ++
    (match detect_seat_belt_violation d frame vehicle_region now with
     | some v => [v]
     | none => [])
  let violations := violations ++
    (match detect_tripling_violation d frame vehicle_region now with
     | some v => [v]
     | none => [])
  (violations, { d with violation_history := d.violation_history ++ violations })

end Detector

/-! ### Claim-side characterizations -/

/-- The count the numbering claim speaks about: challans whose `created_at`
is at or after the current UTC day's midnight. -/
def challansToday (db : DB) (now : DateTime) : Nat :=
  (db.challans.filter (fun c => DateTime.le now.atMidnight c.created_at)).length

/-- The constraint the `vehicle_id` filter imposes, with a falsy value
imposing none. -/
def mVehicle (vehicle_id : Option Int) (c : Challan) : Bool :=
  match vehicle_id with
  | some v => if v == 0 then true else c.vehicle_id == v
  | none => true

/-- The constraint the `status` filter imposes. -/
def mStatus (status : Option String) (c : Challan) : Bool :=
  match status with
  | some s => if s.isEmpty then true else c.status == s
  | none => true

/-- The constraint the `officer_id` filter imposes. -/
def mOfficer (officer_id : Option Int) (c : Challan) : Bool :=
  match officer_id with
  | some o => if o == 0 then true else c.officer_id == o
  | none => true

/-- The constraint the `date_from` filter imposes (datetimes are always
truthy). -/
def mFrom (date_from : Option DateTime) (c : Challan) : Bool :=
  match date_from with
  | some df => DateTime.le df c.issued_date
  | none => true

/-- The constraint the `date_to` filter imposes. -/
def mTo (date_to : Option DateTime) (c : Challan) : Bool :=
  match date_to with
  | some dt2 => DateTime.le c.issued_date dt2
  | none => true

/-- The conjunction of all supplied challan filters, as the claim states
it. -/
def challanMatches (vehicle_id : Option Int) (status : Option String)
    (officer_id : Option Int) (date_from date_to : Option DateTime)
    (c : Challan) : Bool :=
  mVehicle vehicle_id c && mStatus status c && mOfficer officer_id c &&
    mFrom date_from c && mTo date_to c

/-! ### Concrete data for witnesses and counterexamples -/

def exNow : DateTime := ⟨2025, 10, 12, 9, 30, 0, 0⟩

def exToday8 : DateTime := ⟨2025, 10, 12, 8, 0, 0, 0⟩

def exYesterday : DateTime := ⟨2025, 10, 11, 23, 0, 0, 0⟩

def exVehicle (i : Int) : Vehicle :=
  { id := i
    registration_number := "REG-" ++ i.repr
    vehicle_type := "Car"
    owner_name := "Owner"
    owner_contact := "9990001111"
    owner_email := none
    owner_address := none
    chassis_number := "CHS-" ++ i.repr
    engine_number := "ENG-" ++ i.repr
    manufacturing_year := some 2020
    color := some "red"
    fuel_type := some "petrol"
    registration_date := exYesterday
    created_at := exYesterday
    updated_at := exYesterday }

def exChallan (i vid : Int) (st : String) (fine : Rat) (when : DateTime) : Challan :=
  { id := i
    challan_number := "CHN-" ++ i.repr
    vehicle_id := vid
    violation_type_id := 1
    officer_id := 7
    issued_date := when
    location := "MG Road"
    description := none
    fine_amount := fine
    additional_charges := 0
    total_amount := some fine
    status := st
    payment_date := none
    payment_method := none
    transaction_id := none
    remarks := none
    created_at := when
    updated_at := when }

/-- A small store: two vehicles; challans 1 and 2 reference vehicle 1,
challan 3 references vehicle 2; challans 1 and 3 were created today
(relative to `exNow`), challan 2 yesterday. -/
def exDb : DB :=
  { vehicles := [exVehicle 1, exVehicle 2]
    violation_types := []
    challans := [exChallan 1 1 "pending" 500 exToday8,
                 exChallan 2 1 "paid" 300 exYesterday,
                 exChallan 3 2 "pending" 200 exToday8] }

/-- A store pre-seeded so that every challan was created today (relative to
`exNow`): two challans today, none earlier. -/
def exDbToday : DB :=
  { vehicles := [exVehicle 1, exVehicle 2]
    violation_types := []
    challans := [exChallan 1 1 "pending" 500 exToday8,
                 exChallan 3 2 "pending" 200 exToday8] }

def exCreate : ChallanCreate :=
  { violation_type_id := 1
    location := "MG Road"
    description := none
    fine_amount := 500
    status := none }

/-- A challan dict containing every required key, with `amount` present but
equal to `0` (falsy). -/
def amountZeroData : PyDict :=
  [("challan_number", .pstr "CHN-1"), ("date", .pstr "2025-10-12"),
   ("vehicle_number", .pstr "MH12AB1234"), ("owner_name", .pstr "Asha"),
   ("violation_description", .pstr "Signal jump"), ("amount", .pint 0),
   ("location", .pstr "MG Road")]

/-- A challan dict missing only the `amount` key. -/
def missingAmountData : PyDict :=
  [("challan_number", .pstr "CHN-1"), ("date", .pstr "2025-10-12"),
   ("vehicle_number", .pstr "MH12AB1234"), ("owner_name", .pstr "Asha"),
   ("violation_description", .pstr "Signal jump"),
   ("location", .pstr "MG Road")]

/-- A complete challan dict with a truthy numeric amount. -/
def completeChallanData : PyDict :=
  [("challan_number", .pstr "CHN-1"), ("date", .pstr "2025-10-12"),
   ("vehicle_number", .pstr "MH12AB1234"), ("owner_name", .pstr "Asha"),
   ("violation_description", .pstr "Signal jump"), ("amount", .pint 500),
   ("location", .pstr "MG Road")]

/-- Substring test used to state what an error message does or does not
name. -/
def containsAux (needle hay : List Char) : Bool :=
  match hay with
  | [] => needle.isEmpty
  | _ :: t => needle.isPrefixOf hay || containsAux needle t

/-- `needle in hay` on strings. -/
def strContains (hay needle : String) : Bool :=
  containsAux needle.data hay.data

/-- A detector built with the default constructor argument
`confidence_threshold=0.6`. -/
def exDetector : Detector.ViolationDetector :=
  { confidence_threshold := 3 / 5
    violation_history := [] }

/-! ## Helper lemmas -/

theorem pyOrRat_sqlSum (l : List Rat) : pyOrRat (sqlSum l) 0 = l.sum := by
  cases l with
  | nil => rfl
  | cons a t =>
    simp only [sqlSum, pyOrRat]
    by_cases h : (a :: t).sum = 0
    · simp [h]
    · rw [if_neg (by simpa using h)]

theorem pyOrNat_zero (n : Nat) : pyOrNat n 0 = n := by
  by_cases h : n = 0 <;> simp [pyOrNat, h]

/-! ## Theorems for the claims -/

/-- C1 (code_bug): `create_challan` never assigns `total_amount` (or
`additional_charges`): the row it builds has `total_amount = NULL`, which
the `models.py` NOT NULL declaration on that column rejects at commit, so
`create_challan` never returns a record whose `total_amount` equals
`fine_amount + additional_charges` — including on the concrete store and
input from the spec's own example. -/
theorem C1_create_challan_total_amount_unset (db : DB) (challan : ChallanCreate)
    (vehicle_id officer_id : Int) (now : DateTime) :
    (createChallanRow db challan vehicle_id officer_id now).total_amount = none
    ∧ create_challan db challan vehicle_id officer_id now =
        Except.error "NOT NULL constraint failed: challans.total_amount"
    ∧ create_challan exDb exCreate 1 7 exNow =
        Except.error "NOT NULL constraint failed: challans.total_amount" :=
  ⟨rfl, rfl, rfl⟩

/-- C2: `generate_challan_number` returns `CH-` + the current UTC date as
`YYYYMMDD` + `-` + the 5-digit zero-padded decimal of (count of challans
created at or after today's UTC midnight) + 1; with every stored challan
created today it proposes serial (N + 1) for N stored challans; and its
output is a function of that count alone, so two calls observing the same
count produce the identical challan number. -/
theorem C2_generate_challan_number (db db2 : DB) (now : DateTime) :
    generate_challan_number db now =
      "CH-" ++ formatYYYYMMDD now ++ "-" ++ zfill 5 (Nat.repr (challansToday db now + 1))
    ∧ ((∀ c ∈ db.challans, DateTime.le now.atMidnight c.created_at = true) →
        challansToday db now = db.challans.length)
    ∧ (challansToday db2 now = challansToday db now →
        generate_challan_number db2 now = generate_challan_number db now) := by
  refine ⟨rfl, ?_, ?_⟩
  · intro h
    simp only [challansToday]
    rw [List.filter_eq_self.mpr h]
  · intro h
    simp only [generate_challan_number]
    have hc : (db2.challans.filter (fun c => DateTime.le now.atMidnight c.created_at)).length
        = (db.challans.filter (fun c => DateTime.le now.atMidnight c.created_at)).length := h
    rw [hc]

/-- Witness for C2 at concrete stores: `exDb` holds two challans created
today, so the proposed number is `CH-20251012-00003`; `exDbToday` is fully
pre-seeded today and observes the same count, reproducing the identical
number. -/
theorem C2_generate_challan_number_witness :
    generate_challan_number exDb exNow = "CH-20251012-00003"
    ∧ challansToday exDbToday exNow = exDbToday.challans.length
    ∧ generate_challan_number exDbToday exNow = generate_challan_number exDb exNow := by
  obtain ⟨h1, -, h3⟩ := C2_generate_challan_number exDb exDbToday exNow
  obtain ⟨-, h2, -⟩ := C2_generate_challan_number exDbToday exDbToday exNow
  refine ⟨?_, h2 (by decide), h3 (by decide)⟩
  rw [h1]
  decide

/-- C8: on the empty store the dashboard reports all-zero counts and zero
revenue (never null); on every store, `total_revenue` is the sum of
`fine_amount` over challans with status `paid` only, and `pending_challans`
counts exactly the challans with status `pending`. -/
theorem C8_dashboard_statistics (db : DB) :
    get_dashboard_statistics DB.empty =
      { total_vehicles := 0, total_challans := 0, pending_challans := 0, total_revenue := 0 }
    ∧ (get_dashboard_statistics db).total_revenue =
        ((db.challans.filter (fun c => c.status == "paid")).map (fun c => c.fine_amount)).sum
    ∧ (get_dashboard_statistics db).pending_challans =
        (db.challans.filter (fun c => c.status == "pending")).length
    ∧ (get_dashboard_statistics db).total_vehicles = db.vehicles.length
    ∧ (get_dashboard_statistics db).total_challans = db.challans.length := by
  refine ⟨rfl, ?_, ?_, ?_, ?_⟩
  · exact pyOrRat_sqlSum _
  · exact pyOrNat_zero _
  · exact pyOrNat_zero _
  · exact pyOrNat_zero _

/-- C9: each detection record the stub constructs has confidence exactly
`0.0`; hence with any positive confidence threshold every `detect_*` method
returns `None` and `detect_all_violations` returns the empty list, leaving
`violation_history` unchanged. -/
theorem C9_detector_stub {F : Type} (d : Detector.ViolationDetector) (frame : F)
    (region : Int × Int × Int × Int) (now : DateTime)
    (h : 0 < d.confidence_threshold) :
    (Detector.mkHelmetDetection region now).confidence = 0
    ∧ (Detector.mkSeatBeltDetection region now).confidence = 0
    ∧ (Detector.mkTriplingDetection region now).confidence = 0
    ∧ Detector.detect_helmet_violation d frame region now = none
    ∧ Detector.detect_seat_belt_violation d frame region now = none
    ∧ Detector.detect_tripling_violation d frame region now = none
    ∧ Detector.detect_all_violations d frame region now = ([], d) := by
  have hnot : ¬ d.confidence_threshold ≤ (0 : Rat) := not_le.mpr h
  refine ⟨rfl, rfl, rfl, ?_, ?_, ?_, ?_⟩
  · simp [Detector.detect_helmet_violation, Detector.mkHelmetDetection, hnot]
  · simp [Detector.detect_seat_belt_violation, Detector.mkSeatBeltDetection, hnot]
  · simp [Detector.detect_tripling_violation, Detector.mkTriplingDetection, hnot]
  · simp [Detector.detect_all_violations, Detector.detect_helmet_violation,
      Detector.detect_seat_belt_violation, Detector.detect_tripling_violation,
      Detector.mkHelmetDetection, Detector.mkSeatBeltDetection,
      Detector.mkTriplingDetection, hnot]

/-- Witness for C9 at the default threshold `0.6`: all stub detectors stay
silent and the history is untouched. -/
theorem C9_detector_stub_witness :
    Detector.detect_all_violations exDetector () (0, 0, 10, 10) exNow = ([], exDetector) :=
  (C9_detector_stub exDetector () (0, 0, 10, 10) exNow
    (by norm_num [exDetector])).2.2.2.2.2.2

/-- C4: deleting a present vehicle returns `True` and removes the vehicle
together with every challan referencing it, leaving all other vehicles,
unrelated challans and the violation types untouched; deleting an absent id
returns `False` (not an error) and leaves the store unchanged. -/
theorem C4_delete_vehicle_cascade (db : DB) (vid : Int) :
    ((∃ v ∈ db.vehicles, v.id = vid) →
      (delete_vehicle db vid).1 = true
      ∧ (∀ v ∈ (delete_vehicle db vid).2.vehicles, v.id ≠ vid)
      ∧ (∀ c ∈ (delete_vehicle db vid).2.challans, c.vehicle_id ≠ vid)
      ∧ (∀ v ∈ db.vehicles, v.id ≠ vid → v ∈ (delete_vehicle db vid).2.vehicles)
      ∧ (∀ c ∈ db.challans, c.vehicle_id ≠ vid → c ∈ (delete_vehicle db vid).2.challans)
      ∧ (delete_vehicle db vid).2.violation_types = db.violation_types)
    ∧ ((∀ v ∈ db.vehicles, v.id ≠ vid) → delete_vehicle db vid = (false, db)) := by
  constructor
  · rintro ⟨v, hv, hid⟩
    have hfind : (db.vehicles.find? (fun w => w.id == vid)).isSome := by
      rw [List.find?_isSome]
      exact ⟨v, hv, by simpa using hid⟩
    obtain ⟨w, hw⟩ := Option.isSome_iff_exists.mp hfind
    simp only [delete_vehicle, hw]
    refine ⟨by trivial, ?_, ?_, ?_, ?_, by trivial⟩
    · intro x hx
      have := (List.mem_filter.mp hx).2
      simpa using this
    · intro x hx
      have := (List.mem_filter.mp hx).2
      simpa using this
    · intro x hx hne
      exact List.mem_filter.mpr ⟨hx, by simpa using hne⟩
    · intro x hx hne
      exact List.mem_filter.mpr ⟨hx, by simpa using hne⟩
  · intro h
    have hfind : db.vehicles.find? (fun w => w.id == vid) = none :=
      List.find?_eq_none.mpr (fun x hx => by simpa using h x hx)
    simp [delete_vehicle, hfind]

/-- Witness for C4: deleting vehicle 1 from `exDb` succeeds (and cascades),
deleting the absent id 99 returns `false` with the store unchanged. -/
theorem C4_delete_vehicle_cascade_witness :
    (delete_vehicle exDb 1).1 = true ∧ delete_vehicle exDb 99 = (false, exDb) :=
  ⟨((C4_delete_vehicle_cascade exDb 1).1 ⟨exVehicle 1, by decide, by decide⟩).1,
   (C4_delete_vehicle_cascade exDb 99).2 (by decide)⟩

/-- C5: every get / get-by-unique-key and every update, applied to an id or
natural key absent from the store, returns `None` (a value, not an
exception — the operations are total functions here) and leaves the store
unchanged. -/
theorem C5_not_found_semantics (db : DB) (now : DateTime) (vid tid cid : Int)
    (reg num : String) (u1 : VehicleUpdate) (u2 : ViolationTypeUpdate)
    (u3 : ChallanUpdate) :
    ((∀ v ∈ db.vehicles, v.id ≠ vid) →
      get_vehicle db vid = none ∧ update_vehicle db vid u1 now = (none, db))
    ∧ ((∀ v ∈ db.vehicles, v.registration_number ≠ reg) →
      get_vehicle_by_registration db reg = none)
    ∧ ((∀ t ∈ db.violation_types, t.id ≠ tid) →
      get_violation_type db tid = none
      ∧ update_violation_type db tid u2 now = (none, db))
    ∧ ((∀ c ∈ db.challans, c.id ≠ cid) →
      get_challan db cid = none ∧ update_challan db cid u3 now = (none, db))
    ∧ ((∀ c ∈ db.challans, c.challan_number ≠ num) →
      get_challan_by_number db num = none) := by
  refine ⟨?_, ?_, ?_, ?_, ?_⟩
  · intro h
    have hfind : db.vehicles.find? (fun w => w.id == vid) = none :=
      List.find?_eq_none.mpr (fun x hx => by simpa using h x hx)
    exact ⟨hfind, by simp [update_vehicle, hfind]⟩
  · intro h
    exact List.find?_eq_none.mpr (fun x hx => by simpa using h x hx)
  · intro h
    have hfind : db.violation_types.find? (fun t => t.id == tid) = none :=
      List.find?_eq_none.mpr (fun x hx => by simpa using h x hx)
    exact ⟨hfind, by simp [update_violation_type, hfind]⟩
  · intro h
    have hfind : db.challans.find? (fun c => c.id == cid) = none :=
      List.find?_eq_none.mpr (fun x hx => by simpa using h x hx)
    exact ⟨hfind, by simp [update_challan, hfind]⟩
  · intro h
    exact List.find?_eq_none.mpr (fun x hx => by simpa using h x hx)

/-- Witness for C5 on the empty store: every lookup and update comes back
`None` with the store unchanged. -/
theorem C5_not_found_semantics_witness :
    get_vehicle DB.empty 1 = none
    ∧ update_vehicle DB.empty 1 VehicleUpdate.empty exNow = (none, DB.empty)
    ∧ get_vehicle_by_registration DB.empty "REG-9" = none
    ∧ get_violation_type DB.empty 1 = none
    ∧ update_violation_type DB.empty 1 ViolationTypeUpdate.empty exNow = (none, DB.empty)
    ∧ get_challan DB.empty 1 = none
    ∧ update_challan DB.empty 1 ChallanUpdate.empty exNow = (none, DB.empty)
    ∧ get_challan_by_number DB.empty "CHN-9" = none := by
  obtain ⟨h1, h2, h3, h4, h5⟩ := C5_not_found_semantics DB.empty exNow 1 1 1
    "REG-9" "CHN-9" VehicleUpdate.empty ViolationTypeUpdate.empty ChallanUpdate.empty
  obtain ⟨h1a, h1b⟩ := h1 (by decide)
  obtain ⟨h3a, h3b⟩ := h3 (by decide)
  obtain ⟨h4a, h4b⟩ := h4 (by decide)
  exact ⟨h1a, h1b, h2 (by decide), h3a, h3b, h4a, h4b, h5 (by decide)⟩

/-- C6: an update applies exactly the fields the caller supplied plus a
fresh `updated_at`; a field left unset (`none` slot, i.e. excluded by
`exclude_unset`) keeps its old value (`Option.getD`), and the update with
the empty partial-data set changes only `updated_at`.  Stated for
`update_vehicle` and `update_challan` on a present record. -/
theorem C6_update_supplied_fields_only (db : DB) (now : DateTime) (vid cid : Int)
    (uv : VehicleUpdate) (uc : ChallanUpdate) (v : Vehicle) (c : Challan)
    (hv : get_vehicle db vid = some v) (hc : get_challan db cid = some c) :
    (update_vehicle db vid VehicleUpdate.empty now).1 = some { v with updated_at := now }
    ∧ (update_challan db cid ChallanUpdate.empty now).1 = some { c with updated_at := now }
    ∧ VehicleUpdate.empty.apply v now = { v with updated_at := now }
    ∧ ChallanUpdate.empty.apply c now = { c with updated_at := now }
    ∧ (update_vehicle db vid uv now).1 = some (uv.apply v now)
    ∧ (uv.apply v now).updated_at = now
    ∧ (uv.apply v now).id = v.id
    ∧ (uv.apply v now).created_at = v.created_at
    ∧ (uv.apply v now).registration_date = v.registration_date
    ∧ (uv.apply v now).registration_number = uv.registration_number.getD v.registration_number
    ∧ (uv.apply v now).vehicle_type = uv.vehicle_type.getD v.vehicle_type
    ∧ (uv.apply v now).owner_name = uv.owner_name.getD v.owner_name
    ∧ (uv.apply v now).owner_contact = uv.owner_contact.getD v.owner_contact
    ∧ (uv.apply v now).owner_email = uv.owner_email.getD v.owner_email
    ∧ (uv.apply v now).owner_address = uv.owner_address.getD v.owner_address
    ∧ (uv.apply v now).chassis_number = uv.chassis_number.getD v.chassis_number
    ∧ (uv.apply v now).engine_number = uv.engine_number.getD v.engine_number
    ∧ (uv.apply v now).manufacturing_year = uv.manufacturing_year.getD v.manufacturing_year
    ∧ (uv.apply v now).color = uv.color.getD v.color
    ∧ (uv.apply v now).fuel_type = uv.fuel_type.getD v.fuel_type
    ∧ (update_challan db cid uc now).1 = some (uc.apply c now)
    ∧ (uc.apply c now).updated_at = now
    ∧ (uc.apply c now).id = c.id
    ∧ (uc.apply c now).created_at = c.created_at
    ∧ (uc.apply c now).challan_number = c.challan_number
    ∧ (uc.apply c now).vehicle_id = c.vehicle_id
    ∧ (uc.apply c now).violation_type_id = c.violation_type_id
    ∧ (uc.apply c now).officer_id = c.officer_id
    ∧ (uc.apply c now).issued_date = c.issued_date
    ∧ (uc.apply c now).total_amount = c.total_amount
    ∧ (uc.apply c now).location = uc.location.getD c.location
    ∧ (uc.apply c now).description = uc.description.getD c.description
    ∧ (uc.apply c now).fine_amount = uc.fine_amount.getD c.fine_amount
    ∧ (uc.apply c now).additional_charges = uc.additional_charges.getD c.additional_charges
    ∧ (uc.apply c now).status = uc.status.getD c.status
    ∧ (uc.apply c now).payment_date = uc.payment_date.getD c.payment_date
    ∧ (uc.apply c now).payment_method = uc.payment_method.getD c.payment_method
    ∧ (uc.apply c now).transaction_id = uc.transaction_id.getD c.transaction_id
    ∧ (uc.apply c now).remarks = uc.remarks.getD c.remarks := by
  have hv2 : db.vehicles.find? (fun w => w.id == vid) = some v := hv
  have hc2 : db.challans.find? (fun d2 => d2.id == cid) = some c := hc
  refine ⟨?_, ?_, rfl, rfl, ?_, rfl, rfl, rfl, rfl, rfl, rfl, rfl, rfl, rfl,
    rfl, rfl, rfl, rfl, rfl, rfl, ?_, rfl, rfl, rfl, rfl, rfl, rfl, rfl, rfl,
    rfl, rfl, rfl, rfl, rfl, rfl, rfl, rfl, rfl, rfl⟩
  · simp [update_vehicle, hv2, VehicleUpdate.apply, VehicleUpdate.empty]
  · simp [update_challan, hc2, ChallanUpdate.apply, ChallanUpdate.empty]
  · simp [update_vehicle, hv2]
  · simp [update_challan, hc2]

/-- Witness for C6: on `exDb`, updating vehicle 1 and challan 1 with the
empty partial update returns the old records with only `updated_at`
restamped. -/
theorem C6_update_supplied_fields_only_witness :
    (update_vehicle exDb 1 VehicleUpdate.empty exNow).1 =
      some { exVehicle 1 with updated_at := exNow }
    ∧ (update_challan exDb 1 ChallanUpdate.empty exNow).1 =
      some { exChallan 1 1 "pending" 500 exToday8 with updated_at := exNow } := by
  obtain ⟨h1, h2, -⟩ := C6_update_supplied_fields_only exDb exNow 1 1
    VehicleUpdate.empty ChallanUpdate.empty (exVehicle 1)
    (exChallan 1 1 "pending" 500 exToday8) (by decide) (by decide)
  exact ⟨h1, h2⟩

theorem length_le_render (st : List Pdf.Element) (e : Pdf.Element) (he : e ∈ st) :
    (Pdf.renderElement e).length ≤ (Pdf.render st).length := by
  induction st with
  | nil => cases he
  | cons a t ih =>
    rw [show Pdf.render (a :: t) = Pdf.renderElement a ++ Pdf.render t from rfl,
      String.length_append]
    rcases List.mem_cons.mp he with he | he
    · subst he
      exact Nat.le_add_right _ _
    · exact le_trans (ih he) (Nat.le_add_left _ _)

theorem header_mem_challanStory (data : PyDict) :
    Pdf.Element.para (Pdf.strUpper Pdf.title) ∈ Pdf.challanStory data := by
  simp [Pdf.challanStory, Pdf.createChallanHeader]

/-- C10: `validate_challan_data` tests Python truthiness, so a required
field that is present but falsy (e.g. `amount = 0`, empty `owner_name`)
makes validation fail with `"<Label> is required"` among the errors —
whereas `generate_challan_pdf` checks key presence only and accepts such a
dictionary. -/
theorem C10_validate_falsy_vs_generate_presence (data : PyDict) (f label : String)
    (hf : (f, label) ∈ Pdf.requiredChallanLabels)
    (hpresent : data.hasKey f = true)
    (hfalsy : (data.getV f).truthy = false) :
    (Pdf.validate_challan_data data).1 = false
    ∧ (label ++ " is required") ∈ (Pdf.validate_challan_data data).2
    ∧ ((∀ g ∈ Pdf.requiredChallanFields, data.hasKey g = true) →
        ∃ out, Pdf.generate_challan_pdf data none = Except.ok out) := by
  have hmem0 : (label ++ " is required") ∈
      Pdf.requiredChallanLabels.filterMap (fun fl =>
        if !(data.hasKey fl.1) || !(data.getV fl.1).truthy then
          some (fl.2 ++ " is required")
        else none) := by
    refine List.mem_filterMap.mpr ⟨(f, label), hf, ?_⟩
    simp [hpresent, hfalsy]
  have hmem : (label ++ " is required") ∈ (Pdf.validate_challan_data data).2 :=
    List.mem_append_left _ hmem0
  have hne : (Pdf.validate_challan_data data).2 ≠ [] := List.ne_nil_of_mem hmem
  refine ⟨?_, hmem, ?_⟩
  · show ((Pdf.validate_challan_data data).2).isEmpty = false
    cases h2 : (Pdf.validate_challan_data data).2 with
    | nil => exact absurd h2 hne
    | cons x xs => rfl
  · intro h
    have hall : Pdf.requiredChallanFields.all (fun g => data.hasKey g) = true :=
      List.all_eq_true.mpr (fun g hg => h g hg)
    exact ⟨some (Pdf.render (Pdf.challanStory data)),
      by simp [Pdf.generate_challan_pdf, hall]⟩

/-- Witness for C10 at a dictionary whose `amount` key is present with
value `0`: the validator rejects it naming `Amount`, the generator accepts
it. -/
theorem C10_validate_falsy_vs_generate_presence_witness :
    (Pdf.validate_challan_data amountZeroData).1 = false
    ∧ ("Amount is required") ∈ (Pdf.validate_challan_data amountZeroData).2
    ∧ ∃ out, Pdf.generate_challan_pdf amountZeroData none = Except.ok out := by
  obtain ⟨h1, h2, h3⟩ := C10_validate_falsy_vs_generate_presence amountZeroData
    "amount" "Amount" (by decide) (by decide) (by decide)
  exact ⟨h1, h2, h3 (by decide)⟩

/-- C3 counterexample: for the dictionary missing only `amount`, challan
PDF generation does fail — but its `ValueError` message (the full
required-field list) does not contain the string `Amount` anywhere, against
the claim that the failure names `Amount`; the label `Amount is required`
is produced only by `validate_challan_data`, which generation never calls. -/
theorem C3_counterexample_missing_amount :
    Pdf.generate_challan_pdf missingAmountData none =
      Except.error Pdf.challanMissingFieldsMsg
    ∧ strContains Pdf.challanMissingFieldsMsg "Amount" = false
    ∧ (Pdf.validate_challan_data missingAmountData).2 = ["Amount is required"] := by
  refine ⟨rfl, by decide, by decide⟩

/-- C3 (amended): for every challan dict missing at least one required
field, generation fails with the `ValueError` whose message lists the full
required-field key list (in particular each missing field's key, such as
`amount`, occurs in the message — though not the capitalized label
`Amount`); for every dict containing all required keys and no output path,
generation succeeds and returns a non-empty byte stream. -/
theorem C3_generate_challan_pdf_amended (data : PyDict) :
    ((∃ f ∈ Pdf.requiredChallanFields, data.hasKey f = false) →
      Pdf.generate_challan_pdf data none = Except.error Pdf.challanMissingFieldsMsg
      ∧ ∀ f ∈ Pdf.requiredChallanFields, strContains Pdf.challanMissingFieldsMsg f = true)
    ∧ ((∀ f ∈ Pdf.requiredChallanFields, data.hasKey f = true) →
      ∃ out, Pdf.generate_challan_pdf data none = Except.ok (some out)
        ∧ 0 < out.length) := by
  constructor
  · rintro ⟨f, hf, hmiss⟩
    have hall : Pdf.requiredChallanFields.all (fun g => data.hasKey g) = false := by
      by_contra hcontra
      have := List.all_eq_true.mp (eq_true_of_ne_false hcontra) f hf
      simp [hmiss] at this
    refine ⟨by simp [Pdf.generate_challan_pdf, hall], by decide⟩
  · intro h
    have hall : Pdf.requiredChallanFields.all (fun g => data.hasKey g) = true :=
      List.all_eq_true.mpr (fun g hg => h g hg)
    refine ⟨Pdf.render (Pdf.challanStory data), by simp [Pdf.generate_challan_pdf, hall], ?_⟩
    have h22 : (Pdf.renderElement (Pdf.Element.para (Pdf.strUpper Pdf.title))).length = 22 := by
      decide
    have hle := length_le_render (Pdf.challanStory data) _ (header_mem_challanStory data)
    omega

/-- Witness for the amended C3 at a complete dictionary: generation
returns a non-empty byte stream. -/
theorem C3_generate_challan_pdf_amended_witness :
    ∃ out, Pdf.generate_challan_pdf completeChallanData none = Except.ok (some out)
      ∧ 0 < out.length :=
  (C3_generate_challan_pdf_amended completeChallanData).2 (by decide)

theorem filterByVehicle_eq (q : List Challan) (p : Option Int) :
    filterByVehicle q p = q.filter (mVehicle p) := by
  cases p with
  | none => exact (List.filter_eq_self.mpr (fun a _ => rfl)).symm
  | some v =>
    simp only [filterByVehicle]
    by_cases h : (v == 0) = true
    · rw [if_pos h]
      exact (List.filter_eq_self.mpr (fun a _ => by simp [mVehicle, h])).symm
    · rw [if_neg h]
      exact List.filter_congr (fun a _ => by simp [mVehicle, h])

theorem filterByStatus_eq (q : List Challan) (p : Option String) :
    filterByStatus q p = q.filter (mStatus p) := by
  cases p with
  | none => exact (List.filter_eq_self.mpr (fun a _ => rfl)).symm
  | some st =>
    simp only [filterByStatus]
    by_cases h : st.isEmpty = true
    · rw [if_pos h]
      exact (List.filter_eq_self.mpr (fun a _ => by simp [mStatus, h])).symm
    · rw [if_neg h]
      exact List.filter_congr (fun a _ => by simp [mStatus, h])

theorem filterByOfficer_eq (q : List Challan) (p : Option Int) :
    filterByOfficer q p = q.filter (mOfficer p) := by
  cases p with
  | none => exact (List.filter_eq_self.mpr (fun a _ => rfl)).symm
  | some o =>
    simp only [filterByOfficer]
    by_cases h : (o == 0) = true
    · rw [if_pos h]
      exact (List.filter_eq_self.mpr (fun a _ => by simp [mOfficer, h])).symm
    · rw [if_neg h]
      exact List.filter_congr (fun a _ => by simp [mOfficer, h])

theorem filterByDateFrom_eq (q : List Challan) (p : Option DateTime) :
    filterByDateFrom q p = q.filter (mFrom p) := by
  cases p with
  | none => exact (List.filter_eq_self.mpr (fun a _ => rfl)).symm
  | some df => rfl

theorem filterByDateTo_eq (q : List Challan) (p : Option DateTime) :
    filterByDateTo q p = q.filter (mTo p) := by
  cases p with
  | none => exact (List.filter_eq_self.mpr (fun a _ => rfl)).symm
  | some dt2 => rfl

/-- The sequential truthiness-guarded filters of `get_challans` coincide
with one filter by the conjunction of all supplied constraints. -/
theorem get_challans_eq_filter_sort (db : DB) (skip limit : Nat)
    (vehicle_id : Option Int) (status : Option String) (officer_id : Option Int)
    (date_from date_to : Option DateTime) :
    get_challans db skip limit vehicle_id status officer_id date_from date_to =
      (((db.challans.filter
          (challanMatches vehicle_id status officer_id date_from date_to)).insertionSort
            challanIssuedDesc).drop skip).take limit := by
  simp only [get_challans]
  rw [filterByVehicle_eq, filterByStatus_eq, filterByOfficer_eq, filterByDateFrom_eq,
    filterByDateTo_eq]
  simp only [List.filter_filter]
  apply congrArg (List.take limit)
  apply congrArg (List.drop skip)
  apply congrArg (List.insertionSort challanIssuedDesc)
  apply List.filter_congr
  intro c hc
  simp only [challanMatches]
  cases mVehicle vehicle_id c <;> cases mStatus status c <;> cases mOfficer officer_id c <;>
    cases mFrom date_from c <;> cases mTo date_to c <;> rfl

/-- C7: `get_challans` returns exactly the challans satisfying the
conjunction of the supplied filters, sorted by issued date descending, then
offset by `skip` and truncated to `limit`; and a filter supplied with a
falsy value (`None`, `0`, `""`) imposes no constraint. -/
theorem C7_get_challans_filters (db : DB) (skip limit : Nat)
    (vehicle_id : Option Int) (status : Option String) (officer_id : Option Int)
    (date_from date_to : Option DateTime) :
    get_challans db skip limit vehicle_id status officer_id date_from date_to =
      (((db.challans.filter
          (challanMatches vehicle_id status officer_id date_from date_to)).insertionSort
            challanIssuedDesc).drop skip).take limit
    ∧ List.Sorted challanIssuedDesc
        (get_challans db skip limit vehicle_id status officer_id date_from date_to)
    ∧ (∀ c ∈ get_challans db skip limit vehicle_id status officer_id date_from date_to,
        challanMatches vehicle_id status officer_id date_from date_to c = true
        ∧ c ∈ db.challans)
    ∧ get_challans db skip limit (some 0) status officer_id date_from date_to =
        get_challans db skip limit none status officer_id date_from date_to
    ∧ get_challans db skip limit vehicle_id (some "") officer_id date_from date_to =
        get_challans db skip limit vehicle_id none officer_id date_from date_to
    ∧ get_challans db skip limit vehicle_id status (some 0) date_from date_to =
        get_challans db skip limit vehicle_id status none date_from date_to := by
  have heq := get_challans_eq_filter_sort db skip limit vehicle_id status officer_id
    date_from date_to
  have hsub : List.Sublist
      ((((db.challans.filter
        (challanMatches vehicle_id status officer_id date_from date_to)).insertionSort
          challanIssuedDesc).drop skip).take limit)
      ((db.challans.filter
        (challanMatches vehicle_id status officer_id date_from date_to)).insertionSort
          challanIssuedDesc) :=
    (List.take_sublist _ _).trans (List.drop_sublist _ _)
  refine ⟨heq, ?_, ?_, rfl, rfl, rfl⟩
  · rw [heq]
    exact List.Pairwise.sublist hsub (List.sorted_insertionSort challanIssuedDesc _)
  · intro c hc
    rw [heq] at hc
    have hc2 := hsub.subset hc
    have hc3 : c ∈ db.challans.filter
        (challanMatches vehicle_id status officer_id date_from date_to) :=
      (List.perm_insertionSort challanIssuedDesc _).subset hc2
    exact ⟨List.of_mem_filter hc3, List.mem_of_mem_filter hc3⟩

/-- Witness for C7 on `exDb`: filtering by vehicle 1 keeps its two challans
newest-first, and a falsy `vehicle_id = 0` filter imposes no constraint. -/
theorem C7_get_challans_filters_witness :
    get_challans exDb 0 100 (some 1) none none none none =
      [exChallan 1 1 "pending" 500 exToday8, exChallan 2 1 "paid" 300 exYesterday]
    ∧ get_challans exDb 0 100 (some 0) none none none none =
      get_challans exDb 0 100 none none none none none := by
  refine ⟨by decide,
    (C7_get_challans_filters exDb 0 100 (some 0) none none none none).2.2.2.1⟩

end ChallanSystem
